import Mathlib

/-!
Shallow embedding of `Data/ODBC/src/ODBCStatementImpl.cpp` (Poco ODBC
statement-execution engine) and verification of its specification claims.

Each fallible operation is embedded as a function `… → World × Option Err`:
the first component is the object state at return or at the throw point
(mirroring C++ mutation that is not rolled back by an exception), the second
is the exception raised, if any. Value-returning operations use
`World × Except Err α`. Driver interactions are modelled by a `Driver`
oracle record; driver commands issued by the engine are logged in
`World.trace` in issue order (pure metadata reads — column counts and
diagnostic-record retrieval — are oracle lookups and are not logged).
-/

namespace ODBCStmt

/-- Driver return statuses used by the statement engine
(SQL_SUCCESS, SQL_SUCCESS_WITH_INFO, SQL_NO_DATA, SQL_ERROR, SQL_NEED_DATA). -/
inductive SqlReturn where
  | success
  | successWithInfo
  | noData
  | sqlError
  | needData
deriving DecidableEq, Repr

/-- Translation of the SQL_SUCCEEDED test: SQL_SUCCESS or SQL_SUCCESS_WITH_INFO. -/
def sqlSucceeded : SqlReturn → Bool
  | SqlReturn.success => true
  | SqlReturn.successWithInfo => true
  | _ => false

/-- Modelled from the spec: Utility::isError (only its callers are in the source
file) — every status other than the two success statuses is an error; note that
SQL_NO_DATA counts as an error under this test. -/
def isError (rc : SqlReturn) : Bool := !(sqlSucceeded rc)

/-- SQLSTATE for an invalid cursor state (source line 36). -/
def INVALID_CURSOR_STATE : String := "24000"

/-- Diagnostic record: SQLSTATE, native error code, message text. -/
structure DiagRecord where
  state : String
  native : Int
  text : String
deriving DecidableEq, Repr

/-- Driver commands issued by the engine, logged in issue order. -/
inductive DriverCall where
  | setRowArraySize (limit : Nat)
  | bindCol (dataSet pos : Nat)
  | bindParam (pos : Nat)
  | fetch (idx : Nat)
  | moreResults (idx : Nat)
  | rowCount
  | freeStmt
deriving DecidableEq, Repr

/-- Exceptions thrown by the statement engine. The comments give the concrete
C++ exception and the spec-taxonomy name. -/
inductive Err where
  | invalidStatement        -- ODBCException "Empty statements are illegal" (InvalidStatementError)
  | unboundedBulkFetch      -- InvalidArgumentException "Bulk operation not allowed without limit." (UnboundedBulkFetchError)
  | inconsistentExtraction  -- IllegalStateException "Different extraction counts" (InconsistentExtractionCountError)
  | rowNotAvailable         -- StatementException "Next row not available." (RowNotAvailableError)
  | statementError          -- StatementException raised by checkError / clear
  | dataFormat              -- DataFormatException raised while discovering columns
  | nullPointer             -- poco_check_ptr failure
  | assertionViolation      -- poco_assert failure
deriving DecidableEq, Repr

/-- Parameter-binding policy (Binder::ParameterBinding). -/
inductive ParamBinding where
  | immediate
  | atExec
deriving DecidableEq, Repr

/-- Column-extraction policy (Preparator::DataExtraction). -/
inductive DataExtraction where
  | deBound
  | deManual
deriving DecidableEq, Repr

/-- Preparation Context (Preparator): compiled statement text, field-size
limit and extraction policy (text encodings are out of scope per the spec). -/
structure Preparator where
  statementText : List Char
  maxFieldSize : Nat
  extraction : DataExtraction
deriving DecidableEq, Repr

/-- Extractor, created alongside each Preparator and holding it. -/
structure ExtractorRec where
  prep : Preparator
deriving DecidableEq, Repr

/-- Modelled from the spec: one output column binding (extraction adapter) of
the base-class AbstractExtraction interface, which is not in the source file —
it reports whether it wants bulk fetch, how many columns it occupies, and how
many rows one extract() pass consumed. -/
structure Extraction where
  isBulk : Bool
  numOfColumnsHandled : Nat
  extractCount : Nat
deriving DecidableEq, Repr

/-- Modelled from the spec: one input parameter binding of the base-class
AbstractBinding interface, which is not in the source file. -/
structure Binding where
  canBind : Bool
  numOfColumnsHandled : Nat
  numOfRowsHandled : Nat
deriving DecidableEq, Repr

/-- Parameter Binder configuration captured at compile time. -/
structure BinderRec where
  maxFieldSize : Nat
  paramBinding : ParamBinding
  typeInfo : Bool
deriving DecidableEq, Repr

/-- Session configuration and caller-supplied inputs, fixed per scenario. -/
structure Env where
  statementText : List Char
  autoBind : Bool
  autoExtract : Bool
  maxFieldSize : Nat
  dataTypeInfoSupported : Bool
  extractionLimit : Nat
  bindings : List Binding
deriving DecidableEq, Repr

/-- Modelled from the spec: the Limit::LIMIT_UNLIMITED sentinel meaning no
extraction row limit was set. -/
def LIMIT_UNLIMITED : Nat := 2 ^ 32 - 1

/-- Driver oracle: the responses the call-level interface gives to each call,
indexed where needed by how many calls of that kind were made before. -/
structure Driver where
  numResultCols : Nat → Nat
  formatError : Nat → Nat → Bool
  fetchResp : Nat → SqlReturn
  fetchDiagStates : Nat → List String
  moreResultsResp : Nat → SqlReturn
  rowCountResp : SqlReturn
  rowCountValue : Int
  freeStmtResp : SqlReturn
  setRowArraySizeResp : SqlReturn
  diagRec : Nat → SqlReturn × DiagRecord

/-- Statement engine state: the fields of ODBCStatementImpl, the base-class
data-set cursor and output bindings, call counters for the driver oracle, and
the log of issued driver commands. -/
structure World where
  stepCalled : Bool
  nextResponse : SqlReturn
  prepared : Bool
  affectedRowCount : Nat
  canCompile : Bool
  pBinder : Option BinderRec
  preparations : List Preparator
  extractors : List ExtractorRec
  extractions : List Extraction
  errorInfo : List DiagRecord
  columnPtrs : List (List Nat)
  currentDataSet : Nat
  dataSetCount : Nat
  fetchCount : Nat
  moreResultsCount : Nat
  trace : List DriverCall
deriving DecidableEq, Repr

/-- Whitespace test used by trimInPlace (Ascii::isSpace). -/
def isSpaceChar (c : Char) : Bool :=
  c == ' ' || c == '\t' || c == '\n' || c == '\x0B' || c == '\x0C' || c == '\r'

/-- Modelled from the spec: Poco::trimInPlace (not in the source file) —
remove leading and trailing whitespace. -/
def trim (cs : List Char) : List Char :=
  ((cs.dropWhile isSpaceChar).reverse.dropWhile isSpaceChar).reverse

/-- ODBCStatementImpl::isStoredProcedure: trimmed text of length at least 2
that begins with a left brace and ends with a right brace. -/
def isStoredProcedure (env : Env) : Bool :=
  let str := trim env.statementText
  if str.length < 2 then false
  else str[0]? == some '{' && str[str.length - 1]? == some '}'

/-- Modelled from the spec: hasData (defined in the class header, not in the
source file) — the statement carries pending result data iff the driver
reports a nonzero result-column count for the current data set. -/
def hasData (drv : Driver) (s : World) : Bool :=
  drv.numResultCols s.currentDataSet != 0

/-- Modelled from the spec: nextRowReady (defined in the class header, not in
the source file) — the stored fetch response says a row is ready, i.e. the
fetch succeeded rather than failing or reporting no data. -/
def nextRowReady (s : World) : Bool := sqlSucceeded s.nextResponse

/-- Loop of ODBCStatementImpl::addErrors: push a record, fill it from
SQLGetDiagRec at the next 1-based index, pop it again if the status is not
SQL_SUCCEEDED, and continue only on SQL_SUCCESS. Fuel bounds the iterations. -/
def addErrorsLoop (drv : Driver) (fuel : Nat) (i : Nat) (acc : List DiagRecord) : List DiagRecord :=
  match fuel with
  | 0 => acc
  | n + 1 =>
    let r := drv.diagRec (i + 1)
    let acc1 := acc ++ [r.2]
    let acc2 := if !(sqlSucceeded r.1) && !acc1.isEmpty then acc1.dropLast else acc1
    if r.1 == SqlReturn.success then addErrorsLoop drv n (i + 1) acc2 else acc2

/-- ODBCStatementImpl::addErrors. -/
def addErrors (drv : Driver) (fuel : Nat) (s : World) : World :=
  { s with errorInfo := addErrorsLoop drv fuel 0 s.errorInfo }

/-- Exception propagation: run the continuation only when the first step
raised no exception; a raised exception short-circuits, keeping the state at
the throw point. -/
def andThen (r : World × Option Err) (f : World → World × Option Err) : World × Option Err :=
  match r with
  | (s, some e) => (s, some e)
  | (s, none) => f s

/-- Exception propagation into a value-returning continuation. -/
def andThenV {α : Type} (r : World × Option Err) (f : World → World × Except Err α) :
    World × Except Err α :=
  match r with
  | (s, some e) => (s, Except.error e)
  | (s, none) => f s

/-- ODBCStatementImpl::checkError: SQL_NO_DATA passes, an error status throws
a StatementException, SQL_SUCCESS_WITH_INFO collects diagnostics. The message
construction (which calls nativeSQL) is not modelled. -/
def checkError (drv : Driver) (fuel : Nat) (rc : SqlReturn) (s : World) : World × Option Err :=
  if rc == SqlReturn.noData then (s, none)
  else if isError rc then (s, some Err.statementError)
  else if rc == SqlReturn.successWithInfo then (addErrors drv fuel s, none)
  else (s, none)

/-- Column-construction loop of fillColumns: one ODBCMetaColumn (modelled by
its column position) per position; a data-format failure while constructing a
column aborts with DataFormatException, keeping the columns built so far. -/
def fillColumnsLoop (drv : Driver) (ds : Nat) (i : Nat) (n : Nat) (cols : List Nat) : List Nat × Option Err :=
  match n with
  | 0 => (cols, none)
  | m + 1 =>
    if drv.formatError ds i then (cols, some Err.dataFormat)
    else fillColumnsLoop drv ds (i + 1) m (cols ++ [i])

/-- ODBCStatementImpl::fillColumns: grow the per-data-set column cache if
needed, then build one metadata descriptor per returned column. -/
def fillColumns (drv : Driver) (s : World) : World × Option Err :=
  let colCount := drv.numResultCols s.currentDataSet
  let ds := s.currentDataSet
  let ptrs := if s.columnPtrs.length ≤ ds
    then s.columnPtrs ++ List.replicate (ds + 1 - s.columnPtrs.length) []
    else s.columnPtrs
  let (cols, e) := fillColumnsLoop drv ds 0 colCount (ptrs.getD ds [])
  ({ s with columnPtrs := ptrs.set ds cols }, e)

/-- Modelled from the spec: StatementImpl::makeExtractors (base class, not in
the source file) — create one internal extraction adapter per result column. -/
def makeExtractors (n : Nat) (s : World) : World :=
  { s with extractions :=
      s.extractions ++ List.replicate n { isBulk := false, numOfColumnsHandled := 1, extractCount := 1 } }

/-- ODBCStatementImpl::makeInternalExtractors: when the statement has pending
data and no extraction adapters yet, discover columns — swallowing a
data-format error iff the statement is a stored-procedure call — then build
adapters. fixupExtraction has no observable effect in this model. -/
def makeInternalExtractors (env : Env) (drv : Driver) (s : World) : World × Option Err :=
  if hasData drv s && s.extractions.isEmpty then
    match fillColumns drv s with
    | (s1, some e) =>
      if e == Err.dataFormat then
        if isStoredProcedure env then (s1, none) else (s1, some e)
      else (s1, some e)
    | (s1, none) =>
      (makeExtractors (drv.numResultCols s1.currentDataSet) s1, none)
  else (s, none)

/-- ODBCStatementImpl::addPreparator: the first call creates the master
Preparation Context from the statement text (empty text is illegal); later
calls clone the master; every call appends a matching Extractor. -/
def addPreparator (env : Env) (s : World) : World × Option Err :=
  match s.preparations with
  | [] =>
    if env.statementText.isEmpty then (s, some Err.invalidStatement)
    else
      let ext := if env.autoExtract then DataExtraction.deBound else DataExtraction.deManual
      let p : Preparator :=
        { statementText := env.statementText, maxFieldSize := env.maxFieldSize, extraction := ext }
      ({ s with preparations := s.preparations ++ [p],
                extractors := s.extractors ++ [{ prep := p }] }, none)
  | p0 :: _ =>
    ({ s with preparations := s.preparations ++ [p0],
              extractors := s.extractors ++ [{ prep := p0 }] }, none)

/-- Column-preparation loop of doPrepare: one driver-level column preparation
per output binding, at accumulating column offsets. -/
def prepareLoop (ds : Nat) (exts : List Extraction) (pos : Nat) (s : World) : World :=
  match exts with
  | [] => s
  | e :: rest =>
    prepareLoop ds rest (pos + e.numOfColumnsHandled)
      { s with trace := s.trace ++ [DriverCall.bindCol ds pos] }

/-- ODBCStatementImpl::doPrepare: only under automatic-bind extraction with
pending data — check the Preparation Context exists for the current data set,
refuse bulk extraction without a row limit (before issuing the row-array-size
attribute), otherwise set the attribute for bulk, run the per-binding column
preparations, and mark the statement prepared. -/
def doPrepare (env : Env) (drv : Driver) (fuel : Nat) (s : World) : World × Option Err :=
  if env.autoExtract && hasData drv s then
    match s.preparations[s.currentDataSet]? with
    | none => (s, some Err.nullPointer)
    | some _ =>
      let bulk : World × Option Err :=
        match s.extractions with
        | e :: _ =>
          if e.isBulk then
            if env.extractionLimit == LIMIT_UNLIMITED then (s, some Err.unboundedBulkFetch)
            else
              checkError drv fuel drv.setRowArraySizeResp
                { s with trace := s.trace ++ [DriverCall.setRowArraySize env.extractionLimit] }
          else (s, none)
        | [] => (s, none)
      andThen bulk fun s1 =>
        ({ prepareLoop s1.currentDataSet s1.extractions 0 s1 with prepared := true }, none)
  else (s, none)

/-- ODBCStatementImpl::compileImpl: no-op unless compilation is allowed;
otherwise reset fetch state, discard prior Preparation Contexts, create the
master context, build the Binder, discover columns, prepare, and mark the
statement compiled. -/
def compileImpl (env : Env) (drv : Driver) (fuel : Nat) (s : World) : World × Option Err :=
  if !s.canCompile then (s, none)
  else
    let s := { s with stepCalled := false, nextResponse := SqlReturn.success }
    let s := if s.preparations.length != 0 then { s with preparations := [] } else s
    andThen (addPreparator env s) fun s1 =>
      let bindPolicy := if env.autoBind then ParamBinding.immediate else ParamBinding.atExec
      let s2 := { s1 with pBinder := some { maxFieldSize := env.maxFieldSize,
                                            paramBinding := bindPolicy,
                                            typeInfo := env.dataTypeInfoSupported } }
      andThen (makeInternalExtractors env drv s2) fun s3 =>
        andThen (doPrepare env drv fuel s3) fun s4 =>
          ({ s4 with canCompile := false }, none)

/-- ODBCStatementImpl::clear: reset the row-ready flag, the affected-row cache
and the diagnostics, then release the driver cursor; a release failure throws
after the resets have happened. -/
def clear (drv : Driver) (s : World) : World × Option Err :=
  let s1 := { s with stepCalled := false, affectedRowCount := 0, errorInfo := [],
                     trace := s.trace ++ [DriverCall.freeStmt] }
  if isError drv.freeStmtResp then (s1, some Err.statementError) else (s1, none)

/-- Parameter-binding loop of doBind: bind successive bindings at accumulating
column offsets while each reports itself bindable. -/
def bindLoop (binds : List Binding) (pos : Nat) (s : World) : World :=
  match binds with
  | [] => s
  | b :: rest =>
    if b.canBind then
      bindLoop rest (pos + b.numOfColumnsHandled)
        { s with trace := s.trace ++ [DriverCall.bindParam pos] }
    else s

/-- ODBCStatementImpl::doBind: clear, capture the first binding's row count as
the affected-row count when none is set, then run the binding loop. -/
def doBind (env : Env) (drv : Driver) (s : World) : World × Option Err :=
  andThen (clear drv s) fun s1 =>
    match env.bindings with
    | [] => (s1, none)
    | b :: rest =>
      let s2 := if s1.affectedRowCount == 0
        then { s1 with affectedRowCount := b.numOfRowsHandled }
        else s1
      (bindLoop (b :: rest) 0 s2, none)

/-- ODBCStatementImpl::affectedRowCount: when the cache holds zero, query the
driver row count and cache it on success (the SQLLEN value is cast to the
64-bit unsigned size type); otherwise return the cache. -/
def affectedRowCount (drv : Driver) (s : World) : Nat × World :=
  if s.affectedRowCount == 0 then
    let s1 := { s with trace := s.trace ++ [DriverCall.rowCount] }
    let s2 := if !(isError drv.rowCountResp)
      then { s1 with affectedRowCount := (drv.rowCountValue % (2 ^ 64 : Int)).toNat }
      else s1
    (s2.affectedRowCount, s2)
  else (s.affectedRowCount, s)

/-- ODBCStatementImpl::makeStep: reset the current extractor (no observable
state here), fetch once, apply the invalid-cursor-state workaround — reissue
more-results when diagnostic state 24000 appears after a failed fetch — check
the resulting status, and mark the step as taken. -/
def makeStep (drv : Driver) (fuel : Nat) (s : World) : World × Option Err :=
  let idx := s.fetchCount
  let resp := drv.fetchResp idx
  let s1 := { s with trace := s.trace ++ [DriverCall.fetch idx],
                     fetchCount := idx + 1, nextResponse := resp }
  let s2 :=
    if isError resp then
      if (drv.fetchDiagStates idx).contains INVALID_CURSOR_STATE then
        let m := s1.moreResultsCount
        { s1 with trace := s1.trace ++ [DriverCall.moreResults m],
                  moreResultsCount := m + 1,
                  nextResponse := drv.moreResultsResp m }
      else s1
    else s1
  andThen (checkError drv fuel s2.nextResponse s2) fun s3 =>
    ({ s3 with stepCalled := true }, none)

/-- ODBCStatementImpl::hasNext: with pending data, lazily build extractors and
prepare, re-check readiness if a step is pending, otherwise fetch; on an empty
fetch either advance to the next data set (rebuilding the Preparation Context,
re-preparing and fetching once, then returning true unconditionally) or report
exhaustion. -/
def hasNext (env : Env) (drv : Driver) (fuel : Nat) (s : World) : World × Except Err Bool :=
  if hasData drv s then
    andThenV (if s.extractions.isEmpty then makeInternalExtractors env drv s else (s, none))
      fun s1 =>
    andThenV (if !s1.prepared then doPrepare env drv fuel s1 else (s1, none)) fun s2 =>
    if s2.stepCalled then
      ({ s2 with stepCalled := nextRowReady s2 }, Except.ok (nextRowReady s2))
    else
      andThenV (makeStep drv fuel s2) fun s3 =>
      if !(nextRowReady s3) then
        if s3.currentDataSet + 1 < s3.dataSetCount then
          let s4 := { s3 with currentDataSet := s3.currentDataSet + 1 }
          let m := s4.moreResultsCount
          let resp := drv.moreResultsResp m
          let s5 := { s4 with trace := s4.trace ++ [DriverCall.moreResults m],
                              moreResultsCount := m + 1 }
          if resp == SqlReturn.noData then (s5, Except.ok false)
          else
            andThenV (addPreparator env s5) fun s6 =>
            andThenV (doPrepare env drv fuel s6) fun s7 =>
            andThenV (makeStep drv fuel s7) fun s8 =>
            (s8, Except.ok true)
        else (s3, Except.ok false)
      else
        andThenV (if isError s3.nextResponse then checkError drv fuel s3.nextResponse s3
                  else (s3, none)) fun s9 =>
        (s9, Except.ok true)
  else (s, Except.ok false)

/-- Extraction loop of next: each output binding extracts at its accumulated
column offset; a count differing from the previous nonzero count is an
inconsistency. -/
def nextExtractLoop (exts : List Extraction) (pos : Nat) (count prevCount : Nat) : Except Err Nat :=
  match exts with
  | [] => Except.ok count
  | e :: rest =>
    let c := e.extractCount
    if prevCount != 0 && c != prevCount then Except.error Err.inconsistentExtraction
    else nextExtractLoop rest (pos + e.numOfColumnsHandled) c c

/-- ODBCStatementImpl::next: with a row ready, run the extraction pass
(asserting at least one extraction exists) and clear the row-ready flag on
success; without a ready row throw RowNotAvailableError. -/
def next (s : World) : World × Except Err Nat :=
  if nextRowReady s then
    if s.extractions.isEmpty then (s, Except.error Err.assertionViolation)
    else
      match nextExtractLoop s.extractions 0 0 0 with
      | Except.error e => (s, Except.error e)
      | Except.ok c => ({ s with stepCalled := false }, Except.ok c)
  else (s, Except.error Err.rowNotAvailable)

/-- Driver-command log produced by the column-preparation loop of doPrepare. -/
def prepareTrace (ds : Nat) (exts : List Extraction) (pos : Nat) : List DriverCall :=
  match exts with
  | [] => []
  | e :: rest => DriverCall.bindCol ds pos :: prepareTrace ds rest (pos + e.numOfColumnsHandled)

/-- Modelled from the claim's words, for comparison with the code: accumulate
diagnostic records at successive 1-based indices, stopping exactly when the
driver signals no more records or returns a non-success status, and discard
the record of the stopping call. The strict flag selects the reading of
non-success: strict means any status other than SQL_SUCCESS, lax means a
status that is not SQL_SUCCEEDED. -/
def claimAddErrors (strict : Bool) (drv : Driver) (fuel : Nat) (i : Nat)
    (acc : List DiagRecord) : List DiagRecord :=
  match fuel with
  | 0 => acc
  | n + 1 =>
    let r := drv.diagRec (i + 1)
    let stop := if strict then !(r.1 == SqlReturn.success) || r.1 == SqlReturn.noData
                else !(sqlSucceeded r.1) || r.1 == SqlReturn.noData
    if stop then acc else claimAddErrors strict drv n (i + 1) (acc ++ [r.2])

/-! Concrete scenario data used by witnesses and counterexamples. -/

/-- Quiet driver: no result columns, every fetch reports no data, all
bookkeeping calls succeed, no diagnostics. -/
def drvQuiet : Driver where
  numResultCols := fun _ => 0
  formatError := fun _ _ => false
  fetchResp := fun _ => SqlReturn.noData
  fetchDiagStates := fun _ => []
  moreResultsResp := fun _ => SqlReturn.noData
  rowCountResp := SqlReturn.success
  rowCountValue := 0
  freeStmtResp := SqlReturn.success
  setRowArraySizeResp := SqlReturn.success
  diagRec := fun _ => (SqlReturn.noData, { state := "", native := 0, text := "" })

/-- Baseline session configuration: a plain statement, manual policies. -/
def envX : Env where
  statementText := "SELECT 1".toList
  autoBind := false
  autoExtract := false
  maxFieldSize := 1024
  dataTypeInfoSupported := false
  extractionLimit := LIMIT_UNLIMITED
  bindings := []

/-- Freshly constructed statement state. -/
def sFresh : World where
  stepCalled := false
  nextResponse := SqlReturn.success
  prepared := false
  affectedRowCount := 0
  canCompile := true
  pBinder := none
  preparations := []
  extractors := []
  extractions := []
  errorInfo := []
  columnPtrs := []
  currentDataSet := 0
  dataSetCount := 1
  fetchCount := 0
  moreResultsCount := 0
  trace := []

/-- State right after a successful compile of the baseline scenario. -/
def sCompiled : World := (compileImpl envX drvQuiet 1 sFresh).1

/-- Row-ready state whose two output bindings report extract counts 0 and 1. -/
def cexState2 : World :=
  { sFresh with nextResponse := SqlReturn.success,
                extractions := [{ isBulk := false, numOfColumnsHandled := 1, extractCount := 0 },
                                { isBulk := false, numOfColumnsHandled := 1, extractCount := 1 }] }

/-- Row-ready state whose two output bindings report extract counts 1 and 2. -/
def wState2 : World :=
  { sFresh with nextResponse := SqlReturn.success,
                extractions := [{ isBulk := false, numOfColumnsHandled := 1, extractCount := 1 },
                                { isBulk := false, numOfColumnsHandled := 1, extractCount := 2 }] }

/-- Two data sets, each with one column; every fetch reports no data; the
more-results call succeeds. -/
def w3Drv : Driver :=
  { drvQuiet with numResultCols := fun _ => 1,
                  moreResultsResp := fun _ => SqlReturn.success }

/-- The baseline session with automatic-bind extraction switched on. -/
def w3Env : Env := { envX with autoExtract := true }

/-- Statement state prepared on the first of two data sets, with one
non-bulk output binding and the master Preparation Context built. -/
def w3State : World :=
  { sFresh with
      prepared := true
      dataSetCount := 2
      extractions := [{ isBulk := false, numOfColumnsHandled := 1, extractCount := 1 }]
      preparations := [{ statementText := "SELECT 1".toList, maxFieldSize := 1024,
                         extraction := DataExtraction.deManual }] }

/-- Session requesting automatic-bind extraction with an unlimited row limit. -/
def w4Env : Env := { envX with autoExtract := true }

/-- Driver reporting one result column. -/
def w4Drv : Driver := { drvQuiet with numResultCols := fun _ => 1 }

/-- Statement state whose first (and only) output binding requests bulk fetch. -/
def w4State : World :=
  { sFresh with
      extractions := [{ isBulk := true, numOfColumnsHandled := 1, extractCount := 1 }]
      preparations := [{ statementText := "SELECT 1".toList, maxFieldSize := 1024,
                         extraction := DataExtraction.deBound }] }

/-- Driver whose row-count query reports seven affected rows. -/
def w5Drv : Driver := { drvQuiet with rowCountValue := 7 }

/-- Call-style statement text, surrounded by whitespace. -/
def w6Env : Env :=
  { envX with statementText := ' ' :: '{' :: ("call proc".toList ++ ['}', ' ']) }

/-- Driver with two result columns whose metadata discovery raises a
data-format error on the first column. -/
def w6Drv : Driver :=
  { drvQuiet with numResultCols := fun _ => 2, formatError := fun _ _ => true }

/-- Session whose statement text is empty. -/
def w7Env : Env := { envX with statementText := [] }

/-- Session with one bindable input binding handling three rows. -/
def w9Env : Env :=
  { envX with bindings := [{ canBind := true, numOfColumnsHandled := 1, numOfRowsHandled := 3 }] }

/-- First diagnostic record of the addErrors scenarios. -/
def recW1 : DiagRecord := { state := "01000", native := 1, text := "warning one" }

/-- Second diagnostic record of the addErrors scenarios. -/
def recW2 : DiagRecord := { state := "01001", native := 2, text := "warning two" }

/-- Empty diagnostic record. -/
def recNone : DiagRecord := { state := "", native := 0, text := "" }

/-- Driver whose first diagnostic record comes back SQL_SUCCESS_WITH_INFO,
the second SQL_SUCCESS, and the rest SQL_NO_DATA. -/
def drv8x : Driver :=
  { drvQuiet with diagRec := fun i =>
      if i = 1 then (SqlReturn.successWithInfo, recW1)
      else if i = 2 then (SqlReturn.success, recW2)
      else (SqlReturn.noData, recNone) }

/-- Driver with exactly one diagnostic record, then SQL_NO_DATA. -/
def drv8w : Driver :=
  { drvQuiet with diagRec := fun i =>
      if i = 1 then (SqlReturn.success, recW1) else (SqlReturn.noData, recNone) }

/-! Helper lemmas. -/

/-- Decomposition of a successful sequenced step. -/
theorem andThen_eq_none (r : World × Option Err) (f : World → World × Option Err) (s₁ : World)
    (h : andThen r f = (s₁, none)) : r.2 = none ∧ f r.1 = (s₁, none) := by
  rcases r with ⟨s, o⟩
  cases o
  · exact ⟨rfl, h⟩
  · simp [andThen] at h

/-- bindLoop only logs driver commands; the affected-row cache is untouched. -/
theorem bindLoop_affectedRowCount (binds : List Binding) (pos : Nat) (s : World) :
    (bindLoop binds pos s).affectedRowCount = s.affectedRowCount := by
  induction binds generalizing pos s with
  | nil => rfl
  | cons b rest ih =>
    unfold bindLoop
    by_cases hb : b.canBind = true
    · simp [hb, ih]
    · simp [hb]

/-- With a zero cache, affectedRowCount issues the row-count query and caches
what the driver reports (zero if the query fails). -/
theorem affectedRowCount_of_zero (drv : Driver) (s : World) (h : s.affectedRowCount = 0) :
    affectedRowCount drv s =
      ((if isError drv.rowCountResp then 0 else (drv.rowCountValue % (2 ^ 64 : Int)).toNat),
       { s with trace := s.trace ++ [DriverCall.rowCount],
                affectedRowCount :=
                  if isError drv.rowCountResp then 0
                  else (drv.rowCountValue % (2 ^ 64 : Int)).toNat }) := by
  unfold affectedRowCount
  by_cases he : isError drv.rowCountResp = true <;> simp [h, he]

/-- With a nonzero cache, affectedRowCount returns the cache and issues no
driver command. -/
theorem affectedRowCount_of_ne (drv : Driver) (s : World) (h : s.affectedRowCount ≠ 0) :
    affectedRowCount drv s = (s.affectedRowCount, s) := by
  have hb : (s.affectedRowCount == 0) = false := beq_eq_false_iff_ne.mpr h
  unfold affectedRowCount
  rw [hb]
  simp

/-! Claim theorems. -/

/-- C10: clear resets the row-ready flag, the affected-row cache and the
accumulated diagnostics before issuing the cursor release, so those resets
hold in the resulting state even when the release fails and clear throws. -/
theorem clear_resets_before_cursor_release (drv : Driver) (s : World) :
    (clear drv s).1.stepCalled = false ∧
    (clear drv s).1.affectedRowCount = 0 ∧
    (clear drv s).1.errorInfo = [] ∧
    (clear drv s).1.trace = s.trace ++ [DriverCall.freeStmt] := by
  unfold clear
  by_cases hf : isError drv.freeStmtResp = true <;> simp [hf]

/-- C4: under automatic-bind extraction with pending data, when the first
extraction adapter requests bulk fetch while the extraction row limit is
unlimited, doPrepare throws UnboundedBulkFetchError with the state completely
unchanged — in particular no driver command (row-array-size attribute or
column preparation) was issued. -/
theorem doPrepare_unbounded_bulk_fails_first (env : Env) (drv : Driver) (fuel : Nat) (s : World)
    (e : Extraction) (rest : List Extraction)
    (hae : env.autoExtract = true)
    (hd : hasData drv s = true)
    (hds : s.currentDataSet < s.preparations.length)
    (hx : s.extractions = e :: rest)
    (hb : e.isBulk = true)
    (hl : env.extractionLimit = LIMIT_UNLIMITED) :
    doPrepare env drv fuel s = (s, some Err.unboundedBulkFetch) := by
  unfold doPrepare
  rw [hae, hd, List.getElem?_eq_getElem hds, hx]
  simp [hb, hl, andThen]

/-- C4 witness: the bulk-without-limit scenario evaluated concretely. -/
theorem doPrepare_unbounded_bulk_fails_first_witness :
    doPrepare w4Env w4Drv 5 w4State = (w4State, some Err.unboundedBulkFetch) :=
  doPrepare_unbounded_bulk_fails_first w4Env w4Drv 5 w4State
    { isBulk := true, numOfColumnsHandled := 1, extractCount := 1 } []
    (by decide) (by decide) (by decide) (by decide) (by decide) (by decide)

/-- C7: compiling a statement whose text is empty fails with
InvalidStatementError, and the sequence of Preparation Contexts is empty
after the failed call. -/
theorem compile_empty_statement_fails (env : Env) (drv : Driver) (fuel : Nat) (s : World)
    (ht : env.statementText = []) (hc : s.canCompile = true) :
    (compileImpl env drv fuel s).2 = some Err.invalidStatement ∧
    (compileImpl env drv fuel s).1.preparations = [] := by
  unfold compileImpl addPreparator
  rw [hc]
  by_cases hp : s.preparations.length = 0
  · have : s.preparations = [] := List.length_eq_zero.mp hp
    simp [this, ht, andThen]
  · simp [hp, ht, andThen]

/-- C7 witness: empty statement text evaluated concretely. -/
theorem compile_empty_statement_fails_witness :
    (compileImpl w7Env drvQuiet 5 sFresh).2 = some Err.invalidStatement ∧
    (compileImpl w7Env drvQuiet 5 sFresh).1.preparations = [] :=
  compile_empty_statement_fails w7Env drvQuiet 5 sFresh (by decide) (by decide)

/-- C5: after clear, the next affectedRowCount call queries the driver row
count again and returns what the driver now reports, instead of the value
cached before clear; and within one execution, once a nonzero value has been
obtained, a repeated call returns the cached value with no further driver
query (state, including the command log, unchanged). -/
theorem affectedRowCount_requery_after_clear_cached_within (drv : Driver) (s : World)
    (h : (affectedRowCount drv s).1 ≠ 0) :
    ((affectedRowCount drv ((clear drv s).1)).2.trace
        = (clear drv s).1.trace ++ [DriverCall.rowCount]) ∧
    ((affectedRowCount drv ((clear drv s).1)).1
        = if isError drv.rowCountResp then 0 else (drv.rowCountValue % (2 ^ 64 : Int)).toNat) ∧
    (affectedRowCount drv ((affectedRowCount drv s).2)
        = ((affectedRowCount drv s).1, (affectedRowCount drv s).2)) := by
  have hc0 : (clear drv s).1.affectedRowCount = 0 := by
    unfold clear
    by_cases hf : isError drv.freeStmtResp = true <;> simp [hf]
  refine ⟨?_, ?_, ?_⟩
  · rw [affectedRowCount_of_zero drv _ hc0]
  · rw [affectedRowCount_of_zero drv _ hc0]
  · by_cases h0 : s.affectedRowCount = 0
    · rw [affectedRowCount_of_zero drv s h0] at h ⊢
      by_cases he : isError drv.rowCountResp = true
      · rw [if_pos he] at h
        exact absurd rfl h
      · rw [if_neg he] at h
        rw [affectedRowCount_of_ne drv _ (by simpa [he] using h)]
    · rw [affectedRowCount_of_ne drv s h0]
      exact affectedRowCount_of_ne drv s h0

/-- C5 witness: a driver reporting seven affected rows, on a fresh state. -/
theorem affectedRowCount_requery_after_clear_cached_within_witness :
    ((affectedRowCount w5Drv ((clear w5Drv sFresh).1)).2.trace
        = (clear w5Drv sFresh).1.trace ++ [DriverCall.rowCount]) ∧
    ((affectedRowCount w5Drv ((clear w5Drv sFresh).1)).1
        = if isError w5Drv.rowCountResp then 0
          else (w5Drv.rowCountValue % (2 ^ 64 : Int)).toNat) ∧
    (affectedRowCount w5Drv ((affectedRowCount w5Drv sFresh).2)
        = ((affectedRowCount w5Drv sFresh).1, (affectedRowCount w5Drv sFresh).2)) :=
  affectedRowCount_requery_after_clear_cached_within w5Drv sFresh (by decide)

/-- C9: the affected-row cache uses zero as its unknown sentinel — a zero (or
failed) driver row count is never cached, so such a call returns zero,
leaves the cache at zero, and issues the row-count query (and will query
again on every later call); while a nonzero row count captured from the
first input binding during doBind is returned as is, with no driver query. -/
theorem affected_row_zero_sentinel (env : Env) (drvA drvB : Driver) (sA sB : World)
    (b : Binding) (rest : List Binding)
    (hA0 : sA.affectedRowCount = 0)
    (hAv : (drvA.rowCountValue % (2 ^ 64 : Int)).toNat = 0 ∨ isError drvA.rowCountResp = true)
    (hBb : env.bindings = b :: rest)
    (hBn : b.numOfRowsHandled ≠ 0)
    (hBok : (doBind env drvB sB).2 = none) :
    (affectedRowCount drvA sA
        = (0, { sA with trace := sA.trace ++ [DriverCall.rowCount] })) ∧
    (affectedRowCount drvB (doBind env drvB sB).1
        = (b.numOfRowsHandled, (doBind env drvB sB).1)) := by
  constructor
  · rw [affectedRowCount_of_zero drvA sA hA0]
    have hval : (if isError drvA.rowCountResp then 0
        else (drvA.rowCountValue % (2 ^ 64 : Int)).toNat) = 0 := by
      rcases hAv with hv | he
      · by_cases he2 : isError drvA.rowCountResp = true
        · rw [if_pos he2]
        · rw [if_neg he2]; exact hv
      · rw [if_pos he]
    rw [hval]
    simp [hA0]
  · have h1 : (doBind env drvB sB).1.affectedRowCount = b.numOfRowsHandled := by
      by_cases hf : isError drvB.freeStmtResp = true
      · exfalso
        unfold doBind clear at hBok
        simp [hf, andThen] at hBok
      · unfold doBind clear
        simp [hf, hBb, andThen, bindLoop_affectedRowCount]
    have h2 : (doBind env drvB sB).1.affectedRowCount ≠ 0 := by
      rw [h1]; exact hBn
    rw [affectedRowCount_of_ne drvB _ h2, h1]

/-- C9 witness: a zero-reporting driver on a fresh state, and a binding
handling three rows. -/
theorem affected_row_zero_sentinel_witness :
    (affectedRowCount drvQuiet sFresh
        = (0, { sFresh with trace := sFresh.trace ++ [DriverCall.rowCount] })) ∧
    (affectedRowCount drvQuiet (doBind w9Env drvQuiet sFresh).1
        = ((3 : Nat), (doBind w9Env drvQuiet sFresh).1)) :=
  affected_row_zero_sentinel w9Env drvQuiet drvQuiet sFresh sFresh
    { canBind := true, numOfColumnsHandled := 1, numOfRowsHandled := 3 } []
    (by decide) (Or.inl (by decide)) (by decide) (by decide) (by decide)

/-- Compile that returns without throwing leaves the can-compile flag
cleared. -/
theorem compile_clears_canCompile (env : Env) (drv : Driver) (fuel : Nat) (s s₁ : World)
    (h : compileImpl env drv fuel s = (s₁, none)) : s₁.canCompile = false := by
  unfold compileImpl at h
  by_cases hc : s.canCompile = true
  · rw [hc] at h
    simp only [Bool.not_true, Bool.false_eq_true, if_false] at h
    obtain ⟨-, h⟩ := andThen_eq_none _ _ _ h
    obtain ⟨-, h⟩ := andThen_eq_none _ _ _ h
    obtain ⟨-, h⟩ := andThen_eq_none _ _ _ h
    simp only [Prod.mk.injEq, and_true] at h
    subst h
    rfl
  · have hcf : s.canCompile = false := by
      revert hc; cases s.canCompile <;> simp
    rw [hcf] at h
    simp only [Bool.not_false, if_true, Prod.mk.injEq, and_true] at h
    subst h
    exact hcf

/-- C1: compile is idempotent — after a compile that succeeded (and with no
invalidation in between), a second compile returns the state unchanged
without throwing, so the sequence of Preparation Contexts is identical, same
objects and same count. -/
theorem compileImpl_idempotent (env : Env) (drv : Driver) (fuel : Nat) (s s₁ : World)
    (h : compileImpl env drv fuel s = (s₁, none)) :
    compileImpl env drv fuel s₁ = (s₁, none) := by
  have hc := compile_clears_canCompile env drv fuel s s₁ h
  unfold compileImpl
  rw [hc]
  simp

/-- C1 witness: the baseline scenario compiled twice. -/
theorem compileImpl_idempotent_witness :
    compileImpl envX drvQuiet 1 sCompiled = (sCompiled, none) :=
  compileImpl_idempotent envX drvQuiet 1 sFresh sCompiled (by decide)

/-- isStoredProcedure holds exactly on trimmed text of length at least two
that begins with a left brace and ends with a right brace. -/
theorem isStoredProcedure_true_iff (env : Env) :
    isStoredProcedure env = true ↔
      (2 ≤ (trim env.statementText).length ∧
        (trim env.statementText)[0]? = some '{' ∧
        (trim env.statementText)[(trim env.statementText).length - 1]? = some '}') := by
  unfold isStoredProcedure
  by_cases hl : (trim env.statementText).length < 2
  · simp only [hl, if_true, Bool.false_eq_true, false_iff]
    rintro ⟨h2, -, -⟩
    omega
  · have h2 : 2 ≤ (trim env.statementText).length := by omega
    simp only [hl, if_false, Bool.and_eq_true, beq_iff_eq]
    constructor
    · rintro ⟨ha, hb⟩
      exact ⟨h2, ha, hb⟩
    · rintro ⟨-, ha, hb⟩
      exact ⟨ha, hb⟩

/-- C6: when column discovery raises a data-format error and the statement
has pending data with no extraction adapters yet, makeInternalExtractors
swallows the error exactly when the trimmed statement text has length at
least two and is wrapped in a brace pair; otherwise the error propagates. -/
theorem format_error_suppressed_iff_stored_procedure
    (env : Env) (drv : Driver) (s : World)
    (hd : hasData drv s = true)
    (hx : s.extractions = [])
    (hf : (fillColumns drv s).2 = some Err.dataFormat) :
    ((makeInternalExtractors env drv s).2 = none ↔
      (2 ≤ (trim env.statementText).length ∧
        (trim env.statementText)[0]? = some '{' ∧
        (trim env.statementText)[(trim env.statementText).length - 1]? = some '}')) := by
  rcases hfc : fillColumns drv s with ⟨s', oe⟩
  rw [hfc] at hf
  replace hf : oe = some Err.dataFormat := hf
  subst hf
  unfold makeInternalExtractors
  rw [hd, hx]
  simp only [List.isEmpty_nil, Bool.and_self, if_true, hfc]
  by_cases hsp : isStoredProcedure env = true
  · simp only [hsp, if_true, beq_self_eq_true]
    simp only [true_iff]
    exact (isStoredProcedure_true_iff env).mp hsp
  · simp only [Bool.not_eq_true] at hsp
    simp only [hsp, beq_self_eq_true, if_true, Bool.false_eq_true, if_false]
    simp only [Option.some_ne_none, false_iff]
    intro hc
    have := (isStoredProcedure_true_iff env).mpr hc
    rw [hsp] at this
    exact Bool.false_ne_true this

/-- C6 witness: a call-style statement and a plain statement, both with
failing column discovery. -/
theorem format_error_suppressed_iff_stored_procedure_witness :
    ((makeInternalExtractors w6Env w6Drv sFresh).2 = none ↔
      (2 ≤ (trim w6Env.statementText).length ∧
        (trim w6Env.statementText)[0]? = some '{' ∧
        (trim w6Env.statementText)[(trim w6Env.statementText).length - 1]? = some '}')) :=
  format_error_suppressed_iff_stored_procedure w6Env w6Drv sFresh
    (by decide) (by decide) (by decide)

/-- Extraction-loop errors are always the inconsistency error. -/
theorem nextExtractLoop_error_unique (exts : List Extraction) (pos count prev : Nat) (e : Err)
    (h : nextExtractLoop exts pos count prev = Except.error e) :
    e = Err.inconsistentExtraction := by
  induction exts generalizing pos count prev with
  | nil => simp [nextExtractLoop] at h
  | cons x rest ih =>
    simp only [nextExtractLoop] at h
    split at h
    · cases h
      rfl
    · exact ih _ _ _ h

/-- The extraction loop raises the inconsistency error exactly when the chain
of reported counts, seeded with the previous count, breaks the rule that a
count differing from its nonzero predecessor is forbidden. -/
theorem nextExtractLoop_error_iff (exts : List Extraction) (pos count prev : Nat) :
    (nextExtractLoop exts pos count prev = Except.error Err.inconsistentExtraction ↔
      ¬ List.Chain' (fun a b => a ≠ 0 → b = a) (prev :: exts.map Extraction.extractCount)) := by
  induction exts generalizing pos count prev with
  | nil => simp [nextExtractLoop]
  | cons e rest ih =>
    rw [List.map_cons, List.chain'_cons]
    unfold nextExtractLoop
    by_cases hp : (prev != 0 && e.extractCount != prev) = true
    · rw [if_pos hp]
      simp only [bne_iff_ne, Bool.and_eq_true, ne_eq] at hp
      simp only [true_iff]
      rintro ⟨hr, -⟩
      exact hp.2 (hr hp.1)
    · rw [if_neg hp]
      rw [ih]
      have hR : prev ≠ 0 → e.extractCount = prev := by
        intro h0
        by_contra hne
        exact hp (by simp [bne_iff_ne, h0, hne])
      constructor
      · exact fun h hrc => h hrc.2
      · exact fun h hc => h ⟨hR, hc⟩

/-- C2 (counterexample): the claim that any two bindings reporting different
counts in one pass make next() fail with InconsistentExtractionCountError is
false — with reported counts 0 and 1 the pass succeeds, because a zero
previous count disarms the comparison. -/
theorem next_differing_counts_no_error :
    ¬ (∀ s : World, nextRowReady s = true →
        (∃ e1 ∈ s.extractions, ∃ e2 ∈ s.extractions, e1.extractCount ≠ e2.extractCount) →
        (next s).2 = Except.error Err.inconsistentExtraction) := by
  intro hclaim
  have h := hclaim cexState2 (by decide)
    ⟨{ isBulk := false, numOfColumnsHandled := 1, extractCount := 0 }, by decide,
     { isBulk := false, numOfColumnsHandled := 1, extractCount := 1 }, by decide, by decide⟩
  have hok : (next cexState2).2 = Except.ok 1 := by rfl
  rw [hok] at h
  simp at h

/-- C2 (amended): with a row ready and a nonempty extraction list, next()
raises InconsistentExtractionCountError exactly when some binding reports a
count that differs from the immediately preceding binding's count while that
preceding count is nonzero; a binding following a zero count is
unconstrained. -/
theorem next_inconsistent_iff (s : World)
    (h1 : nextRowReady s = true) (h2 : s.extractions ≠ []) :
    ((next s).2 = Except.error Err.inconsistentExtraction ↔
      ¬ List.Chain' (fun a b => a ≠ 0 → b = a) (s.extractions.map Extraction.extractCount)) := by
  have hE : s.extractions.isEmpty = false := by
    cases hx : s.extractions with
    | nil => exact absurd hx h2
    | cons a l => rfl
  have key := nextExtractLoop_error_iff s.extractions 0 0 0
  have hch : ¬ List.Chain' (fun a b => a ≠ 0 → b = a)
        ((0 : Nat) :: s.extractions.map Extraction.extractCount) ↔
      ¬ List.Chain' (fun a b => a ≠ 0 → b = a) (s.extractions.map Extraction.extractCount) := by
    rw [List.chain'_cons']
    simp
  rw [hch] at key
  unfold next
  rw [h1, hE]
  rcases hl : nextExtractLoop s.extractions 0 0 0 with e | c
  · have he : e = Err.inconsistentExtraction := nextExtractLoop_error_unique _ _ _ _ _ hl
    subst he
    rw [hl] at key
    simp only [if_true, Bool.false_eq_true, if_false]
    simpa using key
  · rw [hl] at key
    simp only [if_true, Bool.false_eq_true, if_false]
    constructor
    · intro hcontra
      simp at hcontra
    · intro hc
      exact absurd (key.mpr hc) (by simp)

/-- C2 (amended) witness: counts 1 then 2 break the chain and the pass
raises the inconsistency error. -/
theorem next_inconsistent_iff_witness :
    ((next wState2).2 = Except.error Err.inconsistentExtraction ↔
      ¬ List.Chain' (fun a b => a ≠ 0 → b = a)
          (wState2.extractions.map Extraction.extractCount)) :=
  next_inconsistent_iff wState2 (by decide) (by decide)

/-- C8 (counterexample): when SQLGetDiagRec reports SQL_SUCCESS_WITH_INFO for
the first record, the code keeps that record yet stops retrieving — matching
neither reading of the claim: stopping on any non-SQL_SUCCESS status while
discarding the last record would yield the empty list, and stopping only on
no-data or a non-SQL_SUCCEEDED status would yield both records. -/
theorem addErrors_with_info_cex :
    addErrorsLoop drv8x 5 0 [] = [recW1] ∧
    claimAddErrors true drv8x 5 0 [] = [] ∧
    claimAddErrors false drv8x 5 0 [] = [recW1, recW2] ∧
    addErrorsLoop drv8x 5 0 [] ≠ claimAddErrors true drv8x 5 0 [] ∧
    addErrorsLoop drv8x 5 0 [] ≠ claimAddErrors false drv8x 5 0 [] :=
  ⟨rfl, rfl, rfl, by decide, by decide⟩

/-- Characterization of the addErrors loop: records at the successive indices
up to the first non-SQL_SUCCESS reply are accumulated in index order, and the
record of the stopping call is kept iff its status is SQL_SUCCEEDED. -/
theorem addErrorsLoop_eq_of_stop (drv : Driver) (k : Nat) :
    ∀ (fuel i : Nat) (acc : List DiagRecord), i < k → k ≤ i + fuel →
    (∀ j, i < j → j < k → (drv.diagRec j).1 = SqlReturn.success) →
    (drv.diagRec k).1 ≠ SqlReturn.success →
    addErrorsLoop drv fuel i acc =
      acc ++ (List.range' (i + 1) (k - i - 1)).map (fun j => (drv.diagRec j).2)
          ++ (if sqlSucceeded (drv.diagRec k).1 then [(drv.diagRec k).2] else []) := by
  intro fuel
  induction fuel with
  | zero =>
    intro i acc h1 h2 _ _
    omega
  | succ n ih =>
    intro i acc h1 h2 hsucc hstop
    simp only [addErrorsLoop]
    by_cases hik : i + 1 = k
    · rw [hik]
      have hr : ((drv.diagRec k).1 == SqlReturn.success) = false :=
        beq_eq_false_iff_ne.mpr hstop
      rw [hr]
      have hn1 : k - i - 1 = 0 := by omega
      rw [hn1]
      by_cases hs : sqlSucceeded (drv.diagRec k).1 = true
      · simp [hs]
      · have hs' : sqlSucceeded (drv.diagRec k).1 = false := by
          revert hs; cases sqlSucceeded (drv.diagRec k).1 <;> simp
        simp [hs', List.dropLast_concat]
    · have hlt : i + 1 < k := by omega
      have hr : (drv.diagRec (i + 1)).1 = SqlReturn.success := hsucc (i + 1) (by omega) hlt
      rw [hr]
      simp only [show sqlSucceeded SqlReturn.success = true from rfl, Bool.not_true,
        Bool.false_and, Bool.false_eq_true, if_false, beq_self_eq_true, if_true]
      rw [ih (i + 1) (acc ++ [(drv.diagRec (i + 1)).2]) hlt (by omega)
        (fun j hj1 hj2 => hsucc j (by omega) hj2) hstop]
      have e1 : i + 1 + 1 = i + 2 := by omega
      have e2 : k - (i + 1) - 1 = k - i - 2 := by omega
      rw [e1, e2]
      have hrange : List.range' (i + 1) (k - i - 1) =
          (i + 1) :: List.range' (i + 2) (k - i - 2) := by
        have hn : k - i - 1 = (k - i - 2) + 1 := by omega
        rw [hn, List.range'_succ]
      rw [hrange]
      simp [List.append_assoc]

/-- C8 (amended): addErrors retrieves diagnostic records at successive
1-based indices, accumulating them in index order, and stops as soon as the
driver returns anything other than SQL_SUCCESS; the record of the stopping
call is discarded exactly when its status is not SQL_SUCCEEDED — on
SQL_SUCCESS_WITH_INFO it is kept although retrieval still stops. -/
theorem addErrors_characterization (drv : Driver) (fuel k : Nat) (s : World)
    (hk : 1 ≤ k) (hfuel : k ≤ fuel)
    (hsucc : ∀ j, 1 ≤ j → j < k → (drv.diagRec j).1 = SqlReturn.success)
    (hstop : (drv.diagRec k).1 ≠ SqlReturn.success) :
    (addErrors drv fuel s).errorInfo =
      s.errorInfo ++ (List.range' 1 (k - 1)).map (fun j => (drv.diagRec j).2)
        ++ (if sqlSucceeded (drv.diagRec k).1 then [(drv.diagRec k).2] else []) := by
  unfold addErrors
  rw [addErrorsLoop_eq_of_stop drv k fuel 0 s.errorInfo (by omega) (by omega)
    (fun j hj1 hj2 => hsucc j (by omega) hj2) hstop]
  rfl

/-- C8 (amended) witness: one SQL_SUCCESS record followed by SQL_NO_DATA
yields exactly that record. -/
theorem addErrors_characterization_witness :
    (addErrors drv8w 5 sFresh).errorInfo =
      sFresh.errorInfo ++ (List.range' 1 (2 - 1)).map (fun j => (drv8w.diagRec j).2)
        ++ (if sqlSucceeded (drv8w.diagRec 2).1 then [(drv8w.diagRec 2).2] else []) :=
  addErrors_characterization drv8w 5 2 sFresh (by decide) (by decide)
    (fun j hj1 hj2 => by
      have hj : j = 1 := by omega
      rw [hj]
      rfl)
    (by decide)

/-- prepareLoop only appends its driver commands to the log. -/
theorem prepareLoop_eq (ds : Nat) (exts : List Extraction) (pos : Nat) (s : World) :
    prepareLoop ds exts pos s = { s with trace := s.trace ++ prepareTrace ds exts pos } := by
  induction exts generalizing pos s with
  | nil => simp [prepareLoop, prepareTrace]
  | cons e rest ih =>
    simp [prepareLoop, prepareTrace, ih, List.append_assoc]

/-- makeStep on a fetch that reports no data, with no invalid-cursor-state
diagnostic: the fetch is logged, the no-data response stored, the step marked
taken, and no exception raised. -/
theorem makeStep_noData (drv : Driver) (fuel : Nat) (s : World)
    (hf : drv.fetchResp s.fetchCount = SqlReturn.noData)
    (hg : (drv.fetchDiagStates s.fetchCount).contains INVALID_CURSOR_STATE = false) :
    makeStep drv fuel s =
      ({ s with trace := s.trace ++ [DriverCall.fetch s.fetchCount],
                fetchCount := s.fetchCount + 1,
                nextResponse := SqlReturn.noData,
                stepCalled := true }, none) := by
  have hg' : INVALID_CURSOR_STATE ∉ drv.fetchDiagStates s.fetchCount := by
    simpa using hg
  simp [makeStep, hf, hg', checkError, isError, sqlSucceeded, andThen]

/-- C3: when hasNext finds no row ready in the current data set, more data
sets remain and the driver's more-results call does not report no-data,
hasNext rebuilds the Preparation Context (the sequence grows by one clone),
re-prepares, performs one fetch on the new data set and returns true
unconditionally — even though that first fetch yielded no row, so a following
next() raises RowNotAvailableError. -/
theorem hasNext_advances_data_set_returns_true
    (env : Env) (drv : Driver) (fuel : Nat) (s : World)
    (e0 : Extraction) (exts : List Extraction) (p0 : Preparator) (ps : List Preparator)
    (hae : env.autoExtract = true)
    (hd1 : hasData drv s = true)
    (hd2 : drv.numResultCols (s.currentDataSet + 1) ≠ 0)
    (hx : s.extractions = e0 :: exts)
    (hb : e0.isBulk = false)
    (hpr : s.prepared = true)
    (hsc : s.stepCalled = false)
    (hf1 : drv.fetchResp s.fetchCount = SqlReturn.noData)
    (hg1 : (drv.fetchDiagStates s.fetchCount).contains INVALID_CURSOR_STATE = false)
    (hmore : s.currentDataSet + 1 < s.dataSetCount)
    (hmr : drv.moreResultsResp s.moreResultsCount ≠ SqlReturn.noData)
    (hp : s.preparations = p0 :: ps)
    (hds : s.currentDataSet < s.preparations.length)
    (hf2 : drv.fetchResp (s.fetchCount + 1) = SqlReturn.noData)
    (hg2 : (drv.fetchDiagStates (s.fetchCount + 1)).contains INVALID_CURSOR_STATE = false) :
    (hasNext env drv fuel s).2 = Except.ok true ∧
    (hasNext env drv fuel s).1.preparations.length = s.preparations.length + 1 ∧
    (hasNext env drv fuel s).1.currentDataSet = s.currentDataSet + 1 ∧
    nextRowReady (hasNext env drv fuel s).1 = false ∧
    (next (hasNext env drv fuel s).1).2 = Except.error Err.rowNotAvailable := by
  have hd1' : (drv.numResultCols s.currentDataSet != 0) = true := hd1
  have hd2' : (drv.numResultCols (s.currentDataSet + 1) != 0) = true := bne_iff_ne.mpr hd2
  have hmr' : (drv.moreResultsResp s.moreResultsCount == SqlReturn.noData) = false :=
    beq_eq_false_iff_ne.mpr hmr
  have hds' : s.currentDataSet < ps.length + 1 := by
    rw [hp] at hds
    simpa using hds
  obtain ⟨q, hq⟩ : ∃ q, (ps ++ [p0])[s.currentDataSet]? = some q :=
    ⟨(ps ++ [p0]).get ⟨s.currentDataSet, by simpa using by omega⟩,
     List.getElem?_eq_getElem (by simpa using by omega)⟩
  have hg1' : "24000" ∉ drv.fetchDiagStates s.fetchCount := by
    simpa [INVALID_CURSOR_STATE] using hg1
  have hg2' : "24000" ∉ drv.fetchDiagStates (s.fetchCount + 1) := by
    simpa [INVALID_CURSOR_STATE] using hg2
  refine ⟨?_, ?_, ?_, ?_, ?_⟩ <;>
    simp [hasNext, hasData, hae, hd1', hd2', hx, hb, hpr, hsc, hf1, hg1', hf2, hg2',
          hmore, hmr', hp, hq, andThenV, andThen, makeStep, checkError, isError,
          sqlSucceeded, nextRowReady, next, addPreparator, doPrepare, prepareLoop_eq,
          INVALID_CURSOR_STATE]

/-- C3 witness: two data sets, the first exhausted and the second yielding no
row on its first fetch. -/
theorem hasNext_advances_data_set_returns_true_witness :
    (hasNext w3Env w3Drv 5 w3State).2 = Except.ok true ∧
    (hasNext w3Env w3Drv 5 w3State).1.preparations.length
        = w3State.preparations.length + 1 ∧
    (hasNext w3Env w3Drv 5 w3State).1.currentDataSet = w3State.currentDataSet + 1 ∧
    nextRowReady (hasNext w3Env w3Drv 5 w3State).1 = false ∧
    (next (hasNext w3Env w3Drv 5 w3State).1).2 = Except.error Err.rowNotAvailable :=
  hasNext_advances_data_set_returns_true w3Env w3Drv 5 w3State
    { isBulk := false, numOfColumnsHandled := 1, extractCount := 1 } []
    { statementText := "SELECT 1".toList, maxFieldSize := 1024,
      extraction := DataExtraction.deManual } []
    (by decide) (by decide) (by decide) (by decide) (by decide) (by decide) (by decide)
    (by decide) (by decide) (by decide) (by decide) (by decide) (by decide) (by decide)
    (by decide)

end ODBCStmt
